import Mathlib

/-!
Shallow embedding of the spotipie OAuth2 token/session core
(`src/spotipie/utils.py`, `src/spotipie/auth/_token.py`,
`src/spotipie/auth/sessions.py`) and proofs about it.

Python dicts are modelled as association lists in insertion order, and
fallible Python code (raised exceptions) as `Except String`.  Timestamps
(`time.time()` floats) are modelled as integers: every constant the
claims involve (`expires_in`, the 2-second expiry margin) is integral,
and no claim depends on fractional instants.
-/

namespace Spotipie

/-! ### Python string comparison

CPython compares strings lexicographically by code point; `sorted` on a
list of distinct strings is uniquely determined by that order.  Lean
core's `String` order is iterator-based and does not kernel-reduce, so
we model the comparison directly on the character lists. -/

/-- Lexicographic strict comparison of char lists by code point, as CPython
compares strings: unequal heads decide, equal heads recurse, a proper
prefix is smaller. -/
def pyCharListLt : List Char → List Char → Bool
  | [], [] => false
  | [], _ :: _ => true
  | _ :: _, [] => false
  | a :: as, b :: bs =>
    if a.toNat < b.toNat then true
    else if b.toNat < a.toNat then false
    else pyCharListLt as bs

/-- CPython `a < b` on strings. -/
def pyStrLt (a b : String) : Bool :=
  pyCharListLt a.data b.data

/-- The non-strict order `a <= b` induced by `pyStrLt`, used as the
sortedness relation for `sorted`. -/
def pyLe (a b : String) : Prop :=
  pyStrLt b a = false

instance : DecidableRel pyLe := fun a b => instDecidableEqBool (pyStrLt b a) false

theorem pyCharListLt_asymm : ∀ a b : List Char,
    pyCharListLt a b = true → pyCharListLt b a = false := by
  intro a
  induction a with
  | nil => intro b _; cases b <;> simp [pyCharListLt]
  | cons x xs ih =>
    intro b hab
    cases b with
    | nil => simp [pyCharListLt] at hab
    | cons y ys =>
      simp only [pyCharListLt] at hab ⊢
      by_cases h1 : x.toNat < y.toNat
      · simp [h1, Nat.lt_asymm h1, Nat.ne_of_lt h1]
      · by_cases h2 : y.toNat < x.toNat
        · simp [h1, h2] at hab
        · simp [h1, h2] at hab ⊢
          exact ih ys hab

theorem pyCharListLt_trans : ∀ a b c : List Char,
    pyCharListLt a b = true → pyCharListLt b c = true → pyCharListLt a c = true := by
  intro a
  induction a with
  | nil =>
    intro b c hab hbc
    cases b with
    | nil => simp [pyCharListLt] at hab
    | cons y ys =>
      cases c with
      | nil => simp [pyCharListLt] at hbc
      | cons z zs => simp [pyCharListLt]
  | cons x xs ih =>
    intro b c hab hbc
    cases b with
    | nil => simp [pyCharListLt] at hab
    | cons y ys =>
      cases c with
      | nil => simp [pyCharListLt] at hbc
      | cons z zs =>
        simp only [pyCharListLt] at hab hbc ⊢
        by_cases hxy : x.toNat < y.toNat
        · by_cases hyz : y.toNat < z.toNat
          · have hxz : x.toNat < z.toNat := Nat.lt_trans hxy hyz
            simp [hxz]
          · by_cases hzy : z.toNat < y.toNat
            · simp [hyz, hzy] at hbc
            · have hyz2 : y.toNat = z.toNat := Nat.le_antisymm (Nat.le_of_not_lt hzy) (Nat.le_of_not_lt hyz)
              have hxz : x.toNat < z.toNat := hyz2 ▸ hxy
              simp [hxz]
        · by_cases hyx : y.toNat < x.toNat
          · simp [hxy, hyx] at hab
          · have hxy2 : x.toNat = y.toNat := Nat.le_antisymm (Nat.le_of_not_lt hyx) (Nat.le_of_not_lt hxy)
            simp [hxy, hyx] at hab
            by_cases hyz : y.toNat < z.toNat
            · have hxz : x.toNat < z.toNat := hxy2 ▸ hyz
              simp [hxz]
            · by_cases hzy : z.toNat < y.toNat
              · simp [hyz, hzy] at hbc
              · simp [hyz, hzy] at hbc
                have hxz : ¬ x.toNat < z.toNat := by omega
                have hzx : ¬ z.toNat < x.toNat := by omega
                simp [hxz, hzx]
                exact ih ys zs hab hbc

theorem pyCharListLt_connex : ∀ a b : List Char,
    pyCharListLt a b = false → pyCharListLt b a = false → a = b := by
  intro a
  induction a with
  | nil =>
    intro b hab _
    cases b with
    | nil => rfl
    | cons y ys => simp [pyCharListLt] at hab
  | cons x xs ih =>
    intro b hab hba
    cases b with
    | nil => simp [pyCharListLt] at hba
    | cons y ys =>
      simp only [pyCharListLt] at hab hba
      by_cases hxy : x.toNat < y.toNat
      · simp [hxy] at hab
      · by_cases hyx : y.toNat < x.toNat
        · simp [hxy, hyx] at hab
          simp [hyx] at hba
        · simp [hxy, hyx] at hab hba
          have hx : x = y := by
            have : x.toNat = y.toNat := Nat.le_antisymm (Nat.le_of_not_lt hyx) (Nat.le_of_not_lt hxy)
            exact Char.eq_of_val_eq (UInt32.ext this)
          rw [hx, ih ys hab hba]

instance : IsTotal String pyLe := by
  constructor
  intro a b
  unfold pyLe pyStrLt
  by_cases h : pyCharListLt a.data b.data = true
  · exact Or.inl (pyCharListLt_asymm _ _ h)
  · exact Or.inr (Bool.eq_false_iff.mpr (fun hh => h hh))

instance : IsTrans String pyLe := by
  constructor
  intro a b c hab hbc
  unfold pyLe pyStrLt at hab hbc ⊢
  by_cases h : pyCharListLt c.data a.data = true
  · exfalso
    by_cases h2 : pyCharListLt b.data c.data = true
    · have hba : pyCharListLt b.data a.data = true := pyCharListLt_trans _ _ _ h2 h
      rw [hab] at hba
      exact Bool.false_ne_true hba
    · have h2f : pyCharListLt b.data c.data = false := Bool.eq_false_iff.mpr (fun hh => h2 hh)
      have hbceq := pyCharListLt_connex _ _ h2f hbc
      rw [hbceq] at hab
      rw [hab] at h
      exact Bool.false_ne_true h
  · exact Bool.eq_false_iff.mpr (fun hh => h hh)

instance : IsAntisymm String pyLe := by
  constructor
  intro a b hab hba
  unfold pyLe pyStrLt at hab hba
  have := pyCharListLt_connex a.data b.data hba hab
  cases a; cases b
  simp at this
  rw [this]

/-- Model of CPython `sorted` on a list of strings: the sorted permutation,
unique because the string order is total and antisymmetric. -/
def pySorted (l : List String) : List String :=
  List.insertionSort pyLe l

/-! ### `spotipie.utils.normalize_scope` -/

/-- The values `normalize_scope` accepts: `None`, a string, or an iterable
of strings (list/tuple). -/
inductive ScopeInput where
  | pynone : ScopeInput
  | str (s : String) : ScopeInput
  | list (l : List String) : ScopeInput
  deriving DecidableEq

/-- A truthiness test matching `not scope` in the Python source:
`None`, the empty string and the empty list are falsy. -/
def ScopeInput.falsy : ScopeInput → Bool
  | .pynone => true
  | .str s => s == ""
  | .list l => l.isEmpty

/-- Splitting a list of characters at every character satisfying `p`,
keeping empty pieces (the primitive under both `str.split(':')` and
`str.split()`). -/
def pySplitChars (p : Char → Bool) : List Char → List (List Char)
  | [] => [[]]
  | c :: cs =>
    if p c then [] :: pySplitChars p cs
    else
      match pySplitChars p cs with
      | [] => [[c]]
      | h :: t => (c :: h) :: t

/-- Python `s.split(sep)` for a one-character separator. -/
def pySplitOn (sep : Char) (s : String) : List String :=
  (pySplitChars (fun c => c == sep) s.data).map String.mk

/-- Python `s.split()` with no argument: split on whitespace runs,
dropping empty pieces. -/
def pySplitWhitespace (s : String) : List String :=
  ((pySplitChars Char.isWhitespace s.data).map String.mk).filter (fun p => !(p == ""))

/-- `spotipie.utils.normalize_scope`: `None`/empty input gives the empty
tuple, a string is whitespace-split and sorted, an iterable is sorted. -/
def normalize_scope : ScopeInput → List String
  | .pynone => []
  | .str s => if s == "" then [] else pySorted (pySplitWhitespace s)
  | .list l => if l.isEmpty then [] else pySorted l

/-! ### `spotipie.auth._token.OAuth2Token`

A Python dict is modelled as an association list in insertion order,
its values by the small universe `PyV` of the value shapes that occur
in token dicts.  Timestamps
(`time.time()` floats) are modelled as integers: every constant the
claims involve (`expires_in`, the 2-second margin) is integral, and no
claim depends on fractional instants. -/

/-- Python values occurring in token dicts. -/
inductive PyV where
  | str (s : String) : PyV
  | int (n : Int) : PyV
  | tuple (l : List String) : PyV
  | none : PyV
  deriving DecidableEq

/-- A Python dict with string keys, in insertion order, no duplicate keys. -/
def PyDict : Type := List (String × PyV)

instance : DecidableEq PyDict := by unfold PyDict; infer_instance

instance : Append PyDict := by unfold PyDict; infer_instance

/-- Python dict key lookup. -/
def PyDict.get (d : PyDict) (k : String) : Option PyV :=
  List.lookup k d

/-- Python `k in d` for a dict. -/
def PyDict.hasKey (d : PyDict) (k : String) : Bool :=
  (d.get k).isSome

/-- The `OAuth2Token` value object, after `__attrs_post_init__`: by then
`expires_at` is always set, and `scope` has gone through the
`normalize_scope` converter. -/
structure OAuth2Token where
  access_token : String
  expires_in : Int
  scope : List String
  state : Option String
  token_type : String
  expires_at : Int
  refresh_token : Option String
  deriving DecidableEq

/-- The `OAuth2Token` constructor: the `normalize_scope` converter runs on
`scope`, and `__attrs_post_init__` computes `expires_at` as
`time.time() + expires_in - 2` when it was not supplied.  `now` is the
value of `time.time()` at construction. -/
def OAuth2Token.make (now : Int) (access_token : String) (expires_in : Int)
    (scope : ScopeInput) (st : Option String) (token_type : String)
    (expires_at : Option Int) (refresh_token : Option String) : OAuth2Token :=
  { access_token := access_token
    expires_in := expires_in
    scope := normalize_scope scope
    state := st
    token_type := token_type
    expires_at := expires_at.getD (now + expires_in - 2)
    refresh_token := refresh_token }

/-- `OAuth2Token.is_expired(margin)`: true iff `time.time() >= expires_at - margin`.
`now` is the value of `time.time()` at the call. -/
def OAuth2Token.is_expired (t : OAuth2Token) (now margin : Int) : Bool :=
  decide (t.expires_at - margin ≤ now)

/-- The keyword names `OAuth2Token.__init__` accepts. -/
def tokenFieldNames : List String :=
  ["access_token", "expires_in", "scope", "state", "token_type",
   "expires_at", "refresh_token"]

/-- Decode the `scope` keyword: the converter accepts a string, an
iterable of strings, or `None`. -/
def decodeScope : PyV → Except String ScopeInput
  | .str s => .ok (.str s)
  | .tuple l => .ok (.list l)
  | .none => .ok .pynone
  | _ => .error "TypeError: scope must be str or Iterable"

/-- Decode an optional string keyword (absent or `None` gives `none`). -/
def decodeOptStr (d : PyDict) (k : String) : Except String (Option String)

 :=
  match d.get k with
  | Option.none => .ok Option.none
  | some (.str s) => .ok (some s)
  | some .none => .ok Option.none
  | some _ => .error "TypeError: expected str or None"

/-- Decode an optional numeric keyword (absent or `None` gives `none`). -/
def decodeOptNum (d : PyDict) (k : String) : Except String (Option Int)
 :=
  match d.get k with
  | Option.none => .ok Option.none
  | some (.int n) => .ok (some n)
  | some .none => .ok Option.none
  | some _ => .error "TypeError: expected a number or None"

/-- `OAuth2Token(**kwargs)` on a keyword dict: rejects unexpected
keywords, requires `access_token`, `expires_in` and `scope`, applies the
defaults `state=None`, `token_type=Bearer`, `expires_at=None`,
`refresh_token=None`, then runs the converter and `__attrs_post_init__`. -/
def tokenFromKwargs (now : Int) (d : PyDict) : Except String OAuth2Token :=
  if d.any (fun kv => !(tokenFieldNames.contains kv.1)) then
    .error "TypeError: unexpected keyword argument"
  else do
  let access ← match d.get "access_token" with
    | some (.str s) => .ok s
    | some _ => .error "TypeError: access_token must be str"
    | Option.none => .error "TypeError: missing access_token"
  let ei ← match d.get "expires_in" with
    | some (.int n) => .ok n
    | some _ => .error "TypeError: expires_in must be int"
    | Option.none => .error "TypeError: missing expires_in"
  let sc ← match d.get "scope" with
    | some v => decodeScope v
    | Option.none => .error "TypeError: missing scope"
  let st ← decodeOptStr d "state"
  let tt ← match d.get "token_type" with
    | some (.str s) => .ok s
    | some _ => .error "TypeError: token_type must be str"
    | Option.none => .ok "Bearer"
  let ea ← decodeOptNum d "expires_at"
  let rt ← decodeOptStr d "refresh_token"
  return OAuth2Token.make now access ei sc st tt ea rt

/-- `OAuth2Token.from_dict(data, ignore_unknown_keys)`.  With the flag
set, the source runs `{key: value for key, value in data}`, which
iterates the dict KEYS (strings) and tuple-unpacks each key into two
characters: any key whose length is not exactly 2 raises `ValueError`
before the filtering by `valid_keys` can happen. -/
def OAuth2Token.from_dict (now : Int) (data : PyDict) (ignore_unknown_keys : Bool) :
    Except String OAuth2Token := do
  if ignore_unknown_keys then
    let pairs ← data.mapM (fun kv =>
      match kv.1.data with
      | [a, b] => Except.ok (String.mk [a], PyV.str (String.mk [b]))
      | _ => Except.error "ValueError: cannot unpack key into key, value")
    let valid := "self" :: tokenFieldNames
    tokenFromKwargs now (pairs.filter (fun kv => valid.contains kv.1))
  else
    tokenFromKwargs now data

/-- Encode an optional string field for `attr.asdict`. -/
def encOptStr : Option String → PyV
  | Option.none => .none
  | some s => .str s

/-- `OAuth2Token.to_dict()`, i.e. `attr.asdict(self)`: all seven fields,
in declaration order. -/
def OAuth2Token.to_dict (t : OAuth2Token) : PyDict :=
  [("access_token", .str t.access_token),
   ("expires_in", .int t.expires_in),
   ("scope", .tuple t.scope),
   ("state", encOptStr t.state),
   ("token_type", .str t.token_type),
   ("expires_at", .int t.expires_at),
   ("refresh_token", encOptStr t.refresh_token)]

/-! ### Sortedness facts about `normalize_scope` -/

theorem pySorted_sorted (l : List String) : List.Sorted pyLe (pySorted l) :=
  List.sorted_insertionSort pyLe l

theorem normalize_scope_sorted (x : ScopeInput) :
    List.Sorted pyLe (normalize_scope x) := by
  cases x with
  | pynone => simp [normalize_scope]
  | str s =>
    by_cases h : s == ""
    · simp [normalize_scope, h]
    · simp only [normalize_scope, h, Bool.false_eq_true, if_false]
      exact pySorted_sorted _
  | list l =>
    by_cases h : l.isEmpty
    · simp [normalize_scope, h]
    · simp only [normalize_scope, h, Bool.false_eq_true, if_false]
      exact pySorted_sorted _

theorem pySorted_of_sorted {l : List String} (h : List.Sorted pyLe l) :
    pySorted l = l :=
  List.Sorted.insertionSort_eq h

/-- Normalizing an already-normalized scope value gives it back unchanged. -/
theorem normalize_scope_idem (x : ScopeInput) :
    normalize_scope (.list (normalize_scope x)) = normalize_scope x := by
  have hs := normalize_scope_sorted x
  generalize hl : normalize_scope x = l at hs ⊢
  by_cases h : l.isEmpty
  · show (if l.isEmpty = true then [] else pySorted l) = l
    rw [if_pos h]
    exact (List.isEmpty_iff.mp h).symm
  · show (if l.isEmpty = true then [] else pySorted l) = l
    rw [if_neg h]
    exact pySorted_of_sorted hs

/-! ### `spotipie.utils`: resource identifiers -/

/-- `spotipie.utils.RESOURCE_TYPES`. -/
def RESOURCE_TYPES : List String :=
  ["track", "album", "artist", "playlist", "user"]

/-- Python `str.isalnum()`: nonempty and every character alphanumeric
(restricted here to the `Char.isAlphanum` classes). -/
def pyIsAlnum (s : String) : Bool :=
  !(s == "") && s.data.all Char.isAlphanum

/-- Truthiness of an optional string (`if self.owner_id:` in the source):
`None` and the empty string are falsy. -/
def pyTruthyOptStr : Option String → Bool
  | Option.none => false
  | some s => !(s == "")

/-- The `ResourceInfo` attrs class: type and id of a Spotify resource,
plus the optional legacy `owner_id`. -/
structure ResourceInfo where
  type : String
  id : String
  owner_id : Option String
  deriving DecidableEq

/-- The `ResourceInfo` constructor together with its
`__attrs_post_init__` validation: the type must be a known resource
type, the id alphanumeric, and a truthy `owner_id` is allowed only for
playlists and must be alphanumeric itself. -/
def ResourceInfo.make (ty objId : String) (owner : Option String) :
    Except String ResourceInfo :=
  if !(RESOURCE_TYPES.contains ty) then
    .error "ValueError: invalid resource type"
  else if !(pyIsAlnum objId) then
    .error "ValueError: invalid resource id"
  else if pyTruthyOptStr owner then
    if !(ty == "playlist") then
      .error "ValueError: owner_id provided but the object is not a playlist"
    else if !(pyIsAlnum (owner.getD "")) then
      .error "ValueError: invalid owner id"
    else
      .ok { type := ty, id := objId, owner_id := owner }
  else
    .ok { type := ty, id := objId, owner_id := owner }

/-- `ResourceInfo._from_tokens`: two tokens are type and id, four tokens
are the legacy playlist form `user:{owner}:playlist:{id}`. -/
def ResourceInfo.from_tokens (tokens : List String) :
    Except String ResourceInfo :=
  match tokens with
  | [objType, objId] => ResourceInfo.make objType objId Option.none
  | [user, owner, playlist, objId] =>
    if !(user == "user") then .error "ValueError: invalid Spotify URI/URL"
    else ResourceInfo.make playlist objId (some owner)
  | _ => .error "ValueError: invalid Spotify URI/URL"

/-- `ResourceInfo.from_uri`: split on `:` and drop a leading
`spotify` token. -/
def ResourceInfo.from_uri (uri : String) : Except String ResourceInfo :=
  let tokens := pySplitOn ':' uri
  let tokens := match tokens with
    | t :: rest => if t == "spotify" then rest else t :: rest
    | [] => []
  ResourceInfo.from_tokens tokens

/-- `spotipie.utils.format_uri`. -/
def format_uri (obj_type obj_id : String) (owner_id : Option String) : String :=
  if pyTruthyOptStr owner_id then
    "spotify:user:" ++ owner_id.getD "" ++ ":" ++ obj_type ++ ":" ++ obj_id
  else
    "spotify:" ++ obj_type ++ ":" ++ obj_id

/-- The `ResourceInfo.uri` property. -/
def ResourceInfo.uri (r : ResourceInfo) : String :=
  format_uri r.type r.id r.owner_id

/-- `ResourceInfo.__eq__`: compares only `type` and `id`, never
`owner_id` (the `isinstance` guard is vacuous in this typed model). -/
def ResourceInfo.eq (a b : ResourceInfo) : Bool :=
  b.type == a.type && b.id == a.id

/-! ### Splitting lemmas for the URI round trip -/

theorem pySplitChars_ne_nil (p : Char → Bool) (l : List Char) :
    pySplitChars p l ≠ [] := by
  cases l with
  | nil => simp [pySplitChars]
  | cons c cs =>
    simp only [pySplitChars]
    by_cases h : p c
    · simp [h]
    · simp only [h, Bool.false_eq_true, if_false]
      cases pySplitChars p cs <;> simp

theorem pySplitChars_nosep (p : Char → Bool) (l : List Char)
    (h : ∀ c ∈ l, p c = false) : pySplitChars p l = [l] := by
  induction l with
  | nil => rfl
  | cons c cs ih =>
    have hc : p c = false := h c (List.mem_cons_self c cs)
    have hrest := ih (fun x hx => h x (List.mem_cons_of_mem c hx))
    simp [pySplitChars, hc, hrest]

theorem pySplitChars_append (p : Char → Bool) (a b : List Char) (sep : Char)
    (ha : ∀ c ∈ a, p c = false) (hsep : p sep = true) :
    pySplitChars p (a ++ sep :: b) = a :: pySplitChars p b := by
  induction a with
  | nil => simp [pySplitChars, hsep]
  | cons c cs ih =>
    have hc : p c = false := ha c (List.mem_cons_self c cs)
    have hrest := ih (fun x hx => ha x (List.mem_cons_of_mem c hx))
    simp [pySplitChars, hc, hrest]

theorem isAlphanum_ne_colon {c : Char} (h : c.isAlphanum = true) :
    (c == ':') = false := by
  cases hc : c == ':' with
  | false => rfl
  | true =>
    have : c = ':' := by exact eq_of_beq hc
    rw [this] at h
    simp [Char.isAlphanum, Char.isAlpha, Char.isUpper, Char.isLower, Char.isDigit] at h

theorem pyIsAlnum_no_colon {s : String} (h : pyIsAlnum s = true) :
    ∀ c ∈ s.data, (c == ':') = false := by
  intro c hc
  unfold pyIsAlnum at h
  have hall := (Bool.and_eq_true _ _).mp h |>.2
  exact isAlphanum_ne_colon (List.all_eq_true.mp hall c hc)

/-! ### `spotipie.auth.sessions`

The observable side effects of a session method are returned as a trace
of `RAction`s: the events fired (`token_expired`, `token_updated` from
`spotipie.auth.events`), calls to `refresh_token`, and the final
outbound HTTP call with the token the underlying transport holds at
that moment.  `now` is the value of `time.time()` during the call, and
the dict a token endpoint would return over the network is passed in as
an explicit parameter. -/

/-- Observable actions of a session method. -/
inductive RAction where
  | notifyExpired (tok : Option OAuth2Token) (withhold : Bool) : RAction
  | tokenUpdated (old new : Option OAuth2Token) : RAction
  | refreshCall : RAction
  | outbound (tok : Option OAuth2Token) (withhold : Bool) : RAction
  deriving DecidableEq

/-- The state a session carries that the claims depend on: the single
current token (`self._token`), the auto-refresh flag, and the scope the
wrapped `OAuth2Session` was configured with. -/
structure SessionState where
  token : Option OAuth2Token
  autoRefresh : Bool
  sessionScope : ScopeInput
  deriving DecidableEq

/-- A `token_expired` listener: it receives the event payload (the
expired token and the withhold flag) and may synchronously call
`set_token` with a new token (`some t`) or do nothing (`none`). -/
def ExpiredListener : Type :=
  Option OAuth2Token → Bool → Option OAuth2Token

/-- The `scope` property of `BaseOAuth2Session`: the current token's
scope if a token is set, otherwise the wrapped session's scope,
normalized. -/
def BaseOAuth2Session.scope (st : SessionState) : List String :=
  match st.token with
  | some t => t.scope
  | Option.none => normalize_scope st.sessionScope

/-- The argument of `set_token`: an `OAuth2Token` or an equivalent dict. -/
inductive TokenInput where
  | tok (t : OAuth2Token) : TokenInput
  | dict (d : PyDict) : TokenInput

/-- `BaseOAuth2Session.set_token`: normalizes the argument into an
`OAuth2Token` (a dict without a `scope` key gets the session's scope),
stores it as the single current token, and fires exactly one
`TokenUpdatedEvent(old_token, new_token)`.  Returns the new state, the
installed token, and the fired events. -/
def BaseOAuth2Session.set_token (now : Int) (st : SessionState) (input : TokenInput) :
    Except String (SessionState × OAuth2Token × List RAction) :=
  match input with
  | .tok t =>
    .ok ({ st with token := some t }, t, [.tokenUpdated st.token (some t)])
  | .dict d =>
    if !(d.hasKey "scope") then
      match tokenFromKwargs now (("scope", PyV.tuple (BaseOAuth2Session.scope st)) :: d) with
      | .error e => .error e
      | .ok t => .ok ({ st with token := some t }, t, [.tokenUpdated st.token (some t)])
    else
      match tokenFromKwargs now d with
      | .error e => .error e
      | .ok t => .ok ({ st with token := some t }, t, [.tokenUpdated st.token (some t)])

/-- Dispatch of one `TokenExpiredEvent` to the registered listeners, in
registration order.  A listener that calls `set_token` replaces the
current token and adds the corresponding `tokenUpdated` action; every
listener sees the same event payload, captured when the event fired. -/
def runExpiredListeners (evTok : Option OAuth2Token) (w : Bool) :
    List ExpiredListener → SessionState → SessionState × List RAction
  | [], st => (st, [])
  | f :: fs, st =>
    match f evTok w with
    | Option.none => runExpiredListeners evTok w fs st
    | some t =>
      let r := runExpiredListeners evTok w fs { st with token := some t }
      (r.1, .tokenUpdated st.token (some t) :: r.2)

/-- `self._notify_listeners(TokenExpiredEvent(self, self.token, withhold_token))`. -/
def BaseOAuth2Session.notify_expired (ls : List ExpiredListener)
    (st : SessionState) (w : Bool) : SessionState × List RAction :=
  let r := runExpiredListeners st.token w ls st
  (r.1, .notifyExpired st.token w :: r.2)

/-- Whether `self.token and self.token.is_expired()` holds (`is_expired`
with its default margin of 2 seconds). -/
def BaseOAuth2Session.tokenExpiredNow (st : SessionState) (now : Int) : Bool :=
  match st.token with
  | some t => t.is_expired now 2
  | Option.none => false

/-- `BaseOAuth2Session.request`: if a token is present and expired, fire
one `TokenExpiredEvent`; then delegate the call to the wrapped session
with whatever token is current at that point. -/
def BaseOAuth2Session.request (ls : List ExpiredListener) (now : Int)
    (st : SessionState) (withhold_token : Bool) : SessionState × List RAction :=
  if BaseOAuth2Session.tokenExpiredNow st now then
    let r := BaseOAuth2Session.notify_expired ls st withhold_token
    (r.1, r.2 ++ [.outbound r.1.token withhold_token])
  else
    (st, [.outbound st.token withhold_token])

/-- `ImplicitGrantSession` does not override `request`; it inherits
`BaseOAuth2Session.request` unchanged. -/
def ImplicitGrantSession.request (ls : List ExpiredListener) (now : Int)
    (st : SessionState) (withhold_token : Bool) : SessionState × List RAction :=
  BaseOAuth2Session.request ls now st withhold_token

/-- The two concrete refreshable session classes. -/
inductive RefreshableKind where
  | clientCredentials : RefreshableKind
  | authorizationCode : RefreshableKind

/-- `ClientCredentialsSession.fetch_token`: the wrapped session fetches a
token dict `d` from the token endpoint, `set_token` installs it, and the
new current token is returned. -/
def ClientCredentialsSession.fetch_token (now : Int) (st : SessionState)
    (d : PyDict) : Except String (SessionState × OAuth2Token × List RAction) :=
  BaseOAuth2Session.set_token now st (.dict d)

/-- The flow-specific `_refresh_token`: the authorization-code variant
returns the dict `d` obtained from the refresh-token grant; the
client-credentials variant re-runs `fetch_token` (which itself installs
the token) and returns the resulting `OAuth2Token` object. -/
def RefreshableOAuth2Session.refreshImpl (kind : RefreshableKind) (now : Int)
    (st : SessionState) (d : PyDict) :
    Except String (SessionState × List RAction × TokenInput) :=
  match kind with
  | .authorizationCode =>
    .ok (st, [], .dict d)
  | .clientCredentials =>
    match ClientCredentialsSession.fetch_token now st d with
    | .error e => .error e
    | .ok (st1, t1, evs) => .ok (st1, evs, .tok t1)

/-- `RefreshableOAuth2Session.refresh_token`: obtains a new token via the
flow-specific `_refresh_token` and installs it via `set_token`. -/
def RefreshableOAuth2Session.refresh_token (kind : RefreshableKind) (now : Int)
    (st : SessionState) (d : PyDict) :
    Except String (SessionState × List RAction) :=
  match RefreshableOAuth2Session.refreshImpl kind now st d with
  | .error e => .error e
  | .ok (st1, evs1, r) =>
    match BaseOAuth2Session.set_token now st1 r with
    | .error e => .error e
    | .ok (st2, _, evs2) => .ok (st2, evs1 ++ evs2)

/-- `RefreshableOAuth2Session.request`: like the base `request`, but
after the `TokenExpiredEvent`, if auto-refresh is enabled and the caller
did not withhold the token, `refresh_token` runs before the outbound
call. -/
def RefreshableOAuth2Session.request (kind : RefreshableKind)
    (ls : List ExpiredListener) (now : Int) (st : SessionState)
    (withhold_token : Bool) (d : PyDict) :
    Except String (SessionState × List RAction) :=
  if BaseOAuth2Session.tokenExpiredNow st now then
    let r := BaseOAuth2Session.notify_expired ls st withhold_token
    if r.1.autoRefresh && !withhold_token then
      match RefreshableOAuth2Session.refresh_token kind now r.1 d with
      | .error e => .error e
      | .ok (st2, evs2) =>
        .ok (st2, r.2 ++ [.refreshCall] ++ evs2 ++ [.outbound st2.token withhold_token])
    else
      .ok (r.1, r.2 ++ [.outbound r.1.token withhold_token])
  else
    .ok (st, [.outbound st.token withhold_token])

/-! ### `AuthorizationCodeSession.fetch_token`: callback-URL parsing

`fetch_token` runs `params = parse_qsl(urlparse(callback_url).query)`
and then tests `if 'error' in params`.  `parse_qsl` returns a LIST of
`(name, value)` pairs, so the membership test compares the string
`'error'` against tuples.  `PyObj` models the Python values involved
and `pyObjEq` Python `==` between them (a `str` never equals a
`tuple`). -/

/-- The Python values `fetch_token` handles: strings and name/value pairs. -/
inductive PyObj where
  | pstr (s : String) : PyObj
  | ppair (a b : String) : PyObj
  deriving DecidableEq

/-- Python `==` between such values: strings compare to strings, tuples
to tuples, and a string never equals a tuple. -/
def pyObjEq : PyObj → PyObj → Bool
  | .pstr a, .pstr b => a == b
  | .ppair a b, .ppair c d => a == c && b == d
  | _, _ => false

/-- Python `x in l` for a list: true iff some element compares equal. -/
def pyIn (x : PyObj) (l : List PyObj) : Bool :=
  l.any (pyObjEq x)

/-- Split a char list at the first occurrence of `sep`: the part before
it, and (when `sep` occurs) the part after it. -/
def splitOnceChars (sep : Char) : List Char → List Char × Option (List Char)
  | [] => ([], Option.none)
  | c :: cs =>
    if c == sep then ([], some cs)
    else
      let r := splitOnceChars sep cs
      (c :: r.1, r.2)

/-- The `query` component of `urlparse(url)`: the fragment (after the
first `#`) is stripped first, then the query is what follows the first
`?` of the remainder. -/
def urlparse_query (url : String) : String :=
  let nofrag := (splitOnceChars '#' url.data).1
  String.mk ((splitOnceChars '?' nofrag).2.getD [])

/-- `urllib.parse.parse_qsl` with default arguments: split the query on
`&`, keep only the pieces holding `name=value` with a nonempty value,
and return them as a list of pairs. -/
def parse_qsl (qs : String) : List PyObj :=
  (pySplitChars (fun c => c == '&') qs.data).filterMap (fun part =>
    match splitOnceChars '=' part with
    | (_, Option.none) => Option.none
    | (name, some v) =>
      if v.isEmpty then Option.none
      else some (.ppair (String.mk name) (String.mk v)))

/-- Which branch `AuthorizationCodeSession.fetch_token` takes. -/
inductive FetchTokenOutcome where
  | pyTypeError : FetchTokenOutcome
  | accessDenied : FetchTokenOutcome
  | authorizationError (code : String) : FetchTokenOutcome
  | exchangesCode : FetchTokenOutcome
  deriving DecidableEq

/-- The control flow of `AuthorizationCodeSession.fetch_token` up to the
token exchange: parse the query of the callback URL with `parse_qsl`,
test `'error' in params`, and if that test succeeded the source would
next evaluate `params['error']` - indexing a list with a string, a
`TypeError`.  Otherwise it proceeds to exchange the authorization code
with the token endpoint. -/
def AuthorizationCodeSession.fetchTokenBranch (callback_url : String) :
    FetchTokenOutcome :=
  let params := parse_qsl (urlparse_query callback_url)
  if pyIn (.pstr "error") params then
    .pyTypeError
  else
    .exchangesCode

/-! ### Session trace helpers and demonstration values -/

/-- A token constructed at time 0 with a 10-second lifetime: expired
long before time 1000. -/
def demoOldToken : OAuth2Token :=
  OAuth2Token.make 0 "old" 10 (.str "") Option.none "Bearer"
    Option.none Option.none

/-- A session currently holding `demoOldToken`, auto-refresh enabled. -/
def demoExpiredState : SessionState :=
  { token := some demoOldToken, autoRefresh := true, sessionScope := .pynone }

/-- Is this action a fired `TokenExpiredEvent`? -/
def RAction.isExpiredEvent : RAction → Bool
  | .notifyExpired _ _ => true
  | _ => false

/-- Is this action a call to `refresh_token`? -/
def RAction.isRefreshCall : RAction → Bool
  | .refreshCall => true
  | _ => false

/-- Is this action a fired `TokenUpdatedEvent`? -/
def RAction.isUpdatedEvent : RAction → Bool
  | .tokenUpdated _ _ => true
  | _ => false

theorem set_token_ok {now : Int} {st : SessionState} {i : TokenInput}
    {st2 : SessionState} {t2 : OAuth2Token} {evs : List RAction}
    (h : BaseOAuth2Session.set_token now st i = .ok (st2, t2, evs)) :
    st2 = { st with token := some t2 } ∧
    evs = [.tokenUpdated st.token (some t2)] := by
  cases i with
  | tok t =>
    simp only [BaseOAuth2Session.set_token, Except.ok.injEq, Prod.mk.injEq] at h
    obtain ⟨h1, h2, h3⟩ := h
    subst h2
    exact ⟨h1.symm, h3.symm⟩
  | dict d =>
    simp only [BaseOAuth2Session.set_token] at h
    by_cases hk : (!(PyDict.hasKey d "scope")) = true
    · rw [if_pos hk] at h
      cases htk : tokenFromKwargs now
          (("scope", PyV.tuple (BaseOAuth2Session.scope st)) :: d) with
      | error e => rw [htk] at h; exact absurd h (by simp)
      | ok t =>
        rw [htk] at h
        simp only [Except.ok.injEq, Prod.mk.injEq] at h
        obtain ⟨h1, h2, h3⟩ := h
        subst h2
        exact ⟨h1.symm, h3.symm⟩
    · rw [if_neg hk] at h
      cases htk : tokenFromKwargs now d with
      | error e => rw [htk] at h; exact absurd h (by simp)
      | ok t =>
        rw [htk] at h
        simp only [Except.ok.injEq, Prod.mk.injEq] at h
        obtain ⟨h1, h2, h3⟩ := h
        subst h2
        exact ⟨h1.symm, h3.symm⟩

theorem runExpiredListeners_updates (evTok : Option OAuth2Token) (w : Bool) :
    ∀ (ls : List ExpiredListener) (st : SessionState),
      ∀ a ∈ (runExpiredListeners evTok w ls st).2, a.isUpdatedEvent = true := by
  intro ls
  induction ls with
  | nil => intro st a ha; simp [runExpiredListeners] at ha
  | cons f fs ih =>
    intro st a ha
    simp only [runExpiredListeners] at ha
    cases hf : f evTok w with
    | none => rw [hf] at ha; exact ih st a ha
    | some t =>
      rw [hf] at ha
      simp only [List.mem_cons] at ha
      cases ha with
      | inl h => subst h; rfl
      | inr h => exact ih _ a h

theorem updated_not_expired_not_refresh {a : RAction}
    (h : a.isUpdatedEvent = true) :
    RAction.isExpiredEvent a = false ∧ RAction.isRefreshCall a = false := by
  cases a <;> simp_all [RAction.isUpdatedEvent, RAction.isExpiredEvent,
    RAction.isRefreshCall]

theorem runExpiredListeners_no_expired_no_refresh
    (evTok : Option OAuth2Token) (w : Bool) (ls : List ExpiredListener)
    (st : SessionState) :
    (runExpiredListeners evTok w ls st).2.countP RAction.isExpiredEvent = 0 ∧
    (runExpiredListeners evTok w ls st).2.countP RAction.isRefreshCall = 0 := by
  constructor <;>
    refine List.countP_eq_zero.mpr (fun a ha => ?_) <;>
    have hu := runExpiredListeners_updates evTok w ls st a ha
  · simp [(updated_not_expired_not_refresh hu).1]
  · simp [(updated_not_expired_not_refresh hu).2]

theorem tokenExpiredNow_of (st : SessionState) (now : Int) (t : OAuth2Token)
    (htok : st.token = some t) (hexp : t.is_expired now 2 = true) :
    BaseOAuth2Session.tokenExpiredNow st now = true := by
  unfold BaseOAuth2Session.tokenExpiredNow
  rw [htok]
  exact hexp

theorem base_request_expired (ls : List ExpiredListener) (now : Int)
    (st : SessionState) (w : Bool) (t : OAuth2Token)
    (htok : st.token = some t) (hexp : t.is_expired now 2 = true) :
    BaseOAuth2Session.request ls now st w
      = ((runExpiredListeners st.token w ls st).1,
         .notifyExpired st.token w ::
           ((runExpiredListeners st.token w ls st).2
             ++ [.outbound (runExpiredListeners st.token w ls st).1.token w])) := by
  unfold BaseOAuth2Session.request
  rw [if_pos (tokenExpiredNow_of st now t htok hexp)]
  rfl

/-! ### Claim C4 -/

/-- C4.  `ImplicitGrantSession.request` on a session holding an expired
token fires exactly one `TokenExpiredEvent` and performs no automatic
renewal: the trace contains no `refresh_token` call, the session's token
after the event dispatch is unchanged when no listener is registered
(and otherwise is whatever the listeners synchronously set), and the
outbound call is made last, with the token current at that point. -/
theorem C4_implicit_grant_no_auto_renewal (ls : List ExpiredListener)
    (now : Int) (st : SessionState) (w : Bool) (t : OAuth2Token)
    (htok : st.token = some t) (hexp : t.is_expired now 2 = true) :
    (ImplicitGrantSession.request ls now st w).2.countP RAction.isExpiredEvent = 1 ∧
    (ImplicitGrantSession.request ls now st w).2.countP RAction.isRefreshCall = 0 ∧
    (ImplicitGrantSession.request ls now st w).2.getLast?
      = some (.outbound (ImplicitGrantSession.request ls now st w).1.token w) ∧
    (ls = [] → (ImplicitGrantSession.request ls now st w).1 = st) := by
  have hreq := base_request_expired ls now st w t htok hexp
  have hzero := runExpiredListeners_no_expired_no_refresh st.token w ls st
  unfold ImplicitGrantSession.request
  rw [hreq]
  refine ⟨?_, ?_, ?_, ?_⟩
  · simp [List.countP_cons, List.countP_append, hzero.1,
      RAction.isExpiredEvent]
  · simp [List.countP_cons, List.countP_append, hzero.2,
      RAction.isExpiredEvent, RAction.isRefreshCall]
  · rw [show (RAction.notifyExpired st.token w ::
        ((runExpiredListeners st.token w ls st).2
          ++ [.outbound (runExpiredListeners st.token w ls st).1.token w]))
        = (RAction.notifyExpired st.token w ::
            (runExpiredListeners st.token w ls st).2)
          ++ [.outbound (runExpiredListeners st.token w ls st).1.token w]
      from by simp]
    exact List.getLast?_concat _
  · intro hls
    subst hls
    rfl

/-- Witness for C4: an implicit-grant session holding a token that
expired long before `now = 1000`, with no listeners registered. -/
theorem C4_implicit_grant_no_auto_renewal_witness :
    ((ImplicitGrantSession.request [] 1000 demoExpiredState false).2.countP
        RAction.isExpiredEvent = 1) ∧
    ((ImplicitGrantSession.request [] 1000 demoExpiredState false).2.countP
        RAction.isRefreshCall = 0) ∧
    ((ImplicitGrantSession.request [] 1000 demoExpiredState false).1
        = demoExpiredState) := by
  have h := C4_implicit_grant_no_auto_renewal [] 1000 demoExpiredState false
    demoOldToken rfl (by decide)
  exact ⟨h.1, h.2.1, h.2.2.2 rfl⟩

/-! ### Claim C5 -/

/-- C5.  `set_token` replaces the session's single current token and
always fires exactly one `TokenUpdatedEvent` carrying the old token
(or absent) and the new token - also when the new value is identical to
the old one, since the quantification includes that case.  The install
paths `fetch_token` (client credentials) and `refresh_token`
(authorization code) go through the same `set_token` and fire the same
single notification per `set_token` call. -/
theorem C5_set_token_always_notifies :
    (∀ (now : Int) (st : SessionState) (i : TokenInput) (st2 : SessionState)
        (t2 : OAuth2Token) (evs : List RAction),
      BaseOAuth2Session.set_token now st i = .ok (st2, t2, evs) →
        st2.token = some t2 ∧ evs = [.tokenUpdated st.token (some t2)]) ∧
    (∀ (now : Int) (st : SessionState) (d : PyDict) (st2 : SessionState)
        (t2 : OAuth2Token) (evs : List RAction),
      ClientCredentialsSession.fetch_token now st d = .ok (st2, t2, evs) →
        evs = [.tokenUpdated st.token (some t2)]) ∧
    (∀ (now : Int) (st : SessionState) (d : PyDict) (st2 : SessionState)
        (evs : List RAction),
      RefreshableOAuth2Session.refresh_token .authorizationCode now st d
          = .ok (st2, evs) →
        ∃ t2, st2.token = some t2 ∧
          evs = [.tokenUpdated st.token (some t2)]) := by
  refine ⟨?_, ?_, ?_⟩
  · intro now st i st2 t2 evs h
    obtain ⟨h1, h2⟩ := set_token_ok h
    subst h1
    exact ⟨rfl, h2⟩
  · intro now st d st2 t2 evs h
    exact (set_token_ok h).2
  · intro now st d st2 evs h
    cases hs : BaseOAuth2Session.set_token now st (.dict d) with
    | error e =>
      simp only [RefreshableOAuth2Session.refresh_token,
        RefreshableOAuth2Session.refreshImpl, hs] at h
      exact Except.noConfusion h
    | ok trip =>
      obtain ⟨st1, t1, evs1⟩ := trip
      simp only [RefreshableOAuth2Session.refresh_token,
        RefreshableOAuth2Session.refreshImpl, hs, List.nil_append,
        Except.ok.injEq, Prod.mk.injEq] at h
      obtain ⟨h1, h2⟩ := h
      obtain ⟨hsh1, hsh2⟩ := set_token_ok hs
      subst h1
      subst h2
      subst hsh1
      exact ⟨t1, rfl, hsh2⟩

/-- Witness for C5: replacing the session's token with the very token it
already holds still produces the single update notification. -/
theorem C5_set_token_always_notifies_witness :
    ({ demoExpiredState with token := some demoOldToken } : SessionState).token
        = some demoOldToken ∧
    ([RAction.tokenUpdated demoExpiredState.token (some demoOldToken)] :
        List RAction)
      = [.tokenUpdated demoExpiredState.token (some demoOldToken)] :=
  C5_set_token_always_notifies.1 1000 demoExpiredState (.tok demoOldToken)
    { demoExpiredState with token := some demoOldToken } demoOldToken
    [.tokenUpdated demoExpiredState.token (some demoOldToken)] rfl

/-! ### Claim C3 -/

theorem refresh_token_eval_authCode {now : Int} {st : SessionState}
    {d : PyDict} {st2 : SessionState} {t2 : OAuth2Token} {evs : List RAction}
    (h : BaseOAuth2Session.set_token now st (.dict d) = .ok (st2, t2, evs)) :
    RefreshableOAuth2Session.refresh_token .authorizationCode now st d
      = .ok (st2, evs) := by
  simp only [RefreshableOAuth2Session.refresh_token,
    RefreshableOAuth2Session.refreshImpl, h, List.nil_append]

theorem refresh_token_eval_clientCreds {now : Int} {st : SessionState}
    {d : PyDict} {st2 : SessionState} {t2 : OAuth2Token} {evs : List RAction}
    (h : BaseOAuth2Session.set_token now st (.dict d) = .ok (st2, t2, evs)) :
    RefreshableOAuth2Session.refresh_token .clientCredentials now st d
      = .ok (st2, evs ++ [.tokenUpdated st2.token (some t2)]) := by
  obtain ⟨h1, h2⟩ := set_token_ok h
  simp only [RefreshableOAuth2Session.refresh_token,
    RefreshableOAuth2Session.refreshImpl, ClientCredentialsSession.fetch_token, h]
  simp only [BaseOAuth2Session.set_token]
  subst h1
  rfl

/-- C3.  A refreshable session (either kind) holding an expired token,
with auto-refresh enabled, no listeners registered and the withhold flag
false: `request` first fires exactly one `TokenExpiredEvent`, then calls
`refresh_token` exactly once, and finally makes the outbound call with
the freshly installed token as the session's current token.  `d` is the
token dict the token endpoint returns during the refresh, `hset` states
that installing it succeeds and produces the token `t2`. -/
theorem C3_refreshable_request_auto_refreshes
    (kind : RefreshableKind) (now : Int) (st : SessionState) (t : OAuth2Token)
    (d : PyDict) (st2 : SessionState) (t2 : OAuth2Token) (evs : List RAction)
    (htok : st.token = some t) (hexp : t.is_expired now 2 = true)
    (har : st.autoRefresh = true)
    (hset : BaseOAuth2Session.set_token now st (.dict d) = .ok (st2, t2, evs)) :
    ∃ mid : List RAction,
      RefreshableOAuth2Session.request kind [] now st false d
        = .ok ({ st with token := some t2 },
            .notifyExpired (some t) false :: .refreshCall ::
              (mid ++ [.outbound (some t2) false])) ∧
      mid.countP RAction.isExpiredEvent = 0 ∧
      mid.countP RAction.isRefreshCall = 0 := by
  obtain ⟨hst2, hevs⟩ := set_token_ok hset
  subst hst2
  rw [htok] at hevs
  subst hevs
  have hguard := tokenExpiredNow_of st now t htok hexp
  have hnot : BaseOAuth2Session.notify_expired [] st false
      = (st, [.notifyExpired st.token false]) := rfl
  cases kind with
  | authorizationCode =>
    refine ⟨[.tokenUpdated (some t) (some t2)], ?_, rfl, rfl⟩
    unfold RefreshableOAuth2Session.request
    rw [if_pos hguard]
    simp only [hnot, har, Bool.not_false, Bool.and_true,
      refresh_token_eval_authCode hset, if_true, htok]
    simp
  | clientCredentials =>
    refine ⟨[.tokenUpdated (some t) (some t2),
             .tokenUpdated (some t2) (some t2)], ?_, rfl, rfl⟩
    unfold RefreshableOAuth2Session.request
    rw [if_pos hguard]
    simp only [hnot, har, Bool.not_false, Bool.and_true,
      refresh_token_eval_clientCreds hset, if_true, htok]
    simp

/-- The dict a token endpoint could return during a refresh. -/
def demoRefreshDict : PyDict :=
  [("access_token", PyV.str "new"), ("expires_in", PyV.int 3600)]

/-- The token that installing `demoRefreshDict` at time 1000 produces
(the scope is inherited from the session's current token). -/
def demoNewToken : OAuth2Token :=
  { access_token := "new", expires_in := 3600, scope := [],
    state := Option.none, token_type := "Bearer", expires_at := 4598,
    refresh_token := Option.none }

/-- Witness for C3 on an authorization-code session at time 1000. -/
theorem C3_refreshable_request_auto_refreshes_witness :
    ∃ mid : List RAction,
      RefreshableOAuth2Session.request .authorizationCode [] 1000
          demoExpiredState false demoRefreshDict
        = .ok ({ demoExpiredState with token := some demoNewToken },
            .notifyExpired (some demoOldToken) false :: .refreshCall ::
              (mid ++ [.outbound (some demoNewToken) false])) ∧
      mid.countP RAction.isExpiredEvent = 0 ∧
      mid.countP RAction.isRefreshCall = 0 :=
  C3_refreshable_request_auto_refreshes .authorizationCode 1000
    demoExpiredState demoOldToken demoRefreshDict
    { demoExpiredState with token := some demoNewToken } demoNewToken
    [.tokenUpdated demoExpiredState.token (some demoNewToken)]
    rfl (by decide) rfl rfl

/-! ### Claim C1 -/

/-- C1.  The claim says `AuthorizationCodeSession.fetch_token` raises
`AccessDenied` when the callback URL carries `error=access_denied` and
`AuthorizationException` for other error values, never reaching the
token exchange.  In the code, `parse_qsl` returns a list of pairs, so
the membership test `if error in params` compares a string against
tuples and is always false: on the denial callback the code falls
through to the token-exchange step, and no callback URL can ever reach
the `AccessDenied` branch. -/
theorem C1_fetch_token_error_branch_dead :
    AuthorizationCodeSession.fetchTokenBranch
      "https://redirect?error=access_denied&state=xyz" = .exchangesCode ∧
    ∀ url : String,
      AuthorizationCodeSession.fetchTokenBranch url ≠ .accessDenied := by
  constructor
  · rfl
  · intro url
    unfold AuthorizationCodeSession.fetchTokenBranch
    by_cases h : pyIn (.pstr "error") (parse_qsl (urlparse_query url)) = true <;>
      simp [h]

/-! ### Claim C2 -/

/-- C2, counterexample.  The claim quantifies over every `expires_in >= 0`,
but `__attrs_post_init__` sets `expires_at = now + expires_in - 2`: a
token constructed with `expires_in = 0` (a valid value, and within the
claimed range) is already expired at its own construction instant, so
`is_expired(0)` is true immediately after construction. -/
theorem C2_fresh_token_expired_at_zero :
    (0 : Int) ≤ 0 ∧
    (OAuth2Token.make 100 "tok" 0 (.str "") Option.none "Bearer"
        Option.none Option.none).is_expired 100 0 = true := by
  constructor
  · decide
  · rfl

/-- C2, amended: for every `expires_in > 2`, a token constructed without
an explicit `expires_at` satisfies `expires_at = now + expires_in - 2`,
has `is_expired(0) = false` at its construction instant, and
`is_expired(0) = true` at any instant past `expires_at`. -/
theorem C2_token_expiry (now ei : Int) (a : String) (sc : ScopeInput)
    (st : Option String) (tt : String) (rt : Option String) (h : 2 < ei) :
    (OAuth2Token.make now a ei sc st tt Option.none rt).expires_at = now + ei - 2 ∧
    (OAuth2Token.make now a ei sc st tt Option.none rt).is_expired now 0 = false ∧
    ∀ later : Int,
      (OAuth2Token.make now a ei sc st tt Option.none rt).expires_at < later →
      (OAuth2Token.make now a ei sc st tt Option.none rt).is_expired later 0 = true := by
  refine ⟨rfl, ?_, ?_⟩
  · simp only [OAuth2Token.make, OAuth2Token.is_expired, Option.getD]
    rw [decide_eq_false_iff_not]
    omega
  · intro later hlater
    simp only [OAuth2Token.make, OAuth2Token.is_expired, Option.getD] at hlater ⊢
    rw [decide_eq_true_eq]
    omega

/-- Witness for C2_token_expiry at `now = 100`, `expires_in = 3600`. -/
theorem C2_token_expiry_witness :
    (2 : Int) < 3600 ∧
    (OAuth2Token.make 100 "tok" 3600 (.str "") Option.none "Bearer"
        Option.none Option.none).is_expired 100 0 = false :=
  ⟨by decide,
   (C2_token_expiry 100 3600 "tok" (.str "") Option.none "Bearer"
      Option.none (by decide)).2.1⟩

/-! ### Claim C6 -/

/-- C6.  The claim says `from_dict` with `ignore_unknown_keys=True`
succeeds on a dict of valid fields plus unknown extras, discarding the
extras.  The source instead runs `{key: value for key, value in data}`,
iterating the dict KEYS and tuple-unpacking each key string: on the very
first real key (`access_token`, length 12) this raises `ValueError`.
The same dict restricted to its valid fields parses fine without the
flag, which is what the claimed behavior would have produced. -/
theorem C6_from_dict_ignore_unknown_keys_crashes :
    OAuth2Token.from_dict 1000
      [("access_token", .str "abc"), ("expires_in", .int 3600),
       ("scope", .str ""), ("extra_key", .str "x")] true
      = .error "ValueError: cannot unpack key into key, value" ∧
    OAuth2Token.from_dict 1000
      [("access_token", .str "abc"), ("expires_in", .int 3600),
       ("scope", .str "")] false
      = .ok (OAuth2Token.make 1000 "abc" 3600 (.str "") Option.none "Bearer"
          Option.none Option.none) := by
  constructor
  · rfl
  · rfl

/-! ### Claim C9 -/

/-- C9.  Scope normalization is order-independent and idempotent:
normalizing the strings `"b a"` and `"a b"` and the list `["a","b"]`
all give the canonical sorted tuple `("a","b")`, and normalizing an
already-normalized value returns it unchanged. -/
theorem C9_normalize_scope_canonical :
    normalize_scope (.str "b a") = ["a", "b"] ∧
    normalize_scope (.str "a b") = ["a", "b"] ∧
    normalize_scope (.list ["a", "b"]) = ["a", "b"] ∧
    ∀ x : ScopeInput,
      normalize_scope (.list (normalize_scope x)) = normalize_scope x :=
  ⟨by decide, by decide, by decide, normalize_scope_idem⟩

/-! ### Claim C8 -/

theorem resource_type_no_colon {ty : String} (h : ty ∈ RESOURCE_TYPES) :
    ∀ c ∈ ty.data, (c == ':') = false := by
  fin_cases h <;> decide

theorem pySplitOn_colon_three (ty objId : String)
    (hty : ∀ c ∈ ty.data, (c == ':') = false)
    (hid : ∀ c ∈ objId.data, (c == ':') = false) :
    pySplitOn ':' ("spotify:" ++ ty ++ ":" ++ objId) = ["spotify", ty, objId] := by
  unfold pySplitOn
  have hdata : ("spotify:" ++ ty ++ ":" ++ objId).data
      = "spotify".data ++ ':' :: (ty.data ++ ':' :: objId.data) := by
    simp only [String.data_append]
    show "spotify:".data ++ ty.data ++ [':'] ++ objId.data
        = "spotify".data ++ ':' :: (ty.data ++ ':' :: objId.data)
    show ("spotify".data ++ [':']) ++ ty.data ++ [':'] ++ objId.data = _
    simp [List.append_assoc]
  rw [hdata]
  rw [pySplitChars_append _ _ _ ':' (by decide) (by decide)]
  rw [pySplitChars_append _ _ _ ':' hty (by decide)]
  rw [pySplitChars_nosep _ _ hid]
  rfl

theorem pySplitOn_colon_five (owner objId : String)
    (how : ∀ c ∈ owner.data, (c == ':') = false)
    (hid : ∀ c ∈ objId.data, (c == ':') = false) :
    pySplitOn ':' ("spotify:user:" ++ owner ++ ":playlist:" ++ objId)
      = ["spotify", "user", owner, "playlist", objId] := by
  unfold pySplitOn
  have hdata : ("spotify:user:" ++ owner ++ ":playlist:" ++ objId).data
      = "spotify".data ++ ':' :: ("user".data ++ ':' ::
          (owner.data ++ ':' :: ("playlist".data ++ ':' :: objId.data))) := by
    simp only [String.data_append]
    show "spotify:user:".data ++ owner.data ++ ":playlist:".data ++ objId.data = _
    show ("spotify".data ++ ':' :: "user".data ++ [':']) ++ owner.data
        ++ (':' :: "playlist".data ++ [':']) ++ objId.data = _
    simp [List.append_assoc]
  rw [hdata]
  rw [pySplitChars_append _ _ _ ':' (by decide) (by decide)]
  rw [pySplitChars_append _ _ _ ':' (by decide) (by decide)]
  rw [pySplitChars_append _ _ _ ':' how (by decide)]
  rw [pySplitChars_append _ _ _ ':' (by decide) (by decide)]
  rw [pySplitChars_nosep _ _ hid]
  rfl

theorem resource_make_two_ok {ty objId : String}
    (hty : ty ∈ RESOURCE_TYPES) (hid : pyIsAlnum objId = true) :
    ResourceInfo.make ty objId Option.none
      = .ok { type := ty, id := objId, owner_id := Option.none } := by
  unfold ResourceInfo.make
  have h1 : RESOURCE_TYPES.contains ty = true := List.elem_eq_true_of_mem hty
  rw [h1, hid]
  rfl

theorem pyIsAlnum_ne_empty {s : String} (h : pyIsAlnum s = true) :
    (s == "") = false := by
  unfold pyIsAlnum at h
  have h1 : (!(s == "")) = true := ((Bool.and_eq_true _ _).mp h).1
  cases hse : s == "" with
  | false => rfl
  | true => rw [hse] at h1; exact absurd h1 (by decide)

theorem resource_make_legacy_ok {owner objId : String}
    (how : pyIsAlnum owner = true) (hid : pyIsAlnum objId = true) :
    ResourceInfo.make "playlist" objId (some owner)
      = .ok { type := "playlist", id := objId, owner_id := some owner } := by
  unfold ResourceInfo.make
  simp only [pyTruthyOptStr]
  have hcontains : RESOURCE_TYPES.contains "playlist" = true := by decide
  rw [hcontains, hid]
  simp only [pyIsAlnum_ne_empty how, Bool.not_true, Bool.not_false,
    Bool.false_eq_true, if_false, if_true]
  have hgd : (some owner).getD "" = owner := rfl
  rw [hgd, how]
  rfl

/-- C8.  URI round trip: for every supported resource type and
alphanumeric id, parsing `spotify:{type}:{id}` and re-serializing via
the `uri` property returns the original string, and likewise for the
legacy four-part playlist URI `spotify:user:{owner}:playlist:{id}` with
alphanumeric owner and id. -/
theorem C8_resource_uri_round_trip :
    (∀ ty objId : String, ty ∈ RESOURCE_TYPES → pyIsAlnum objId = true →
      (ResourceInfo.from_uri ("spotify:" ++ ty ++ ":" ++ objId)).map ResourceInfo.uri
        = .ok ("spotify:" ++ ty ++ ":" ++ objId)) ∧
    (∀ owner objId : String, pyIsAlnum owner = true → pyIsAlnum objId = true →
      (ResourceInfo.from_uri ("spotify:user:" ++ owner ++ ":playlist:" ++ objId)).map
          ResourceInfo.uri
        = .ok ("spotify:user:" ++ owner ++ ":playlist:" ++ objId)) := by
  constructor
  · intro ty objId hty hid
    unfold ResourceInfo.from_uri
    rw [pySplitOn_colon_three ty objId (resource_type_no_colon hty)
        (pyIsAlnum_no_colon hid)]
    show (ResourceInfo.make ty objId Option.none).map ResourceInfo.uri = _
    rw [resource_make_two_ok hty hid]
    show Except.ok (format_uri ty objId Option.none) = _
    unfold format_uri pyTruthyOptStr
    rfl
  · intro owner objId how hid
    unfold ResourceInfo.from_uri
    rw [pySplitOn_colon_five owner objId (pyIsAlnum_no_colon how)
        (pyIsAlnum_no_colon hid)]
    show (ResourceInfo.make "playlist" objId (some owner)).map
        ResourceInfo.uri = _
    rw [resource_make_legacy_ok how hid]
    show Except.ok (format_uri "playlist" objId (some owner)) = _
    unfold format_uri
    simp only [pyTruthyOptStr]
    simp only [pyIsAlnum_ne_empty how, Bool.not_false, if_true]
    have hgd : (some owner).getD "" = owner := rfl
    rw [hgd]
    congr 1
    apply String.ext
    simp [String.data_append]

/-- Witness for C8 at `spotify:track:abc123` and
`spotify:user:alice:playlist:p1`. -/
theorem C8_resource_uri_round_trip_witness :
    (ResourceInfo.from_uri "spotify:track:abc123").map ResourceInfo.uri
      = .ok "spotify:track:abc123" ∧
    (ResourceInfo.from_uri "spotify:user:alice:playlist:p1").map ResourceInfo.uri
      = .ok "spotify:user:alice:playlist:p1" :=
  ⟨C8_resource_uri_round_trip.1 "track" "abc123" (by decide) (by decide),
   C8_resource_uri_round_trip.2 "alice" "p1" (by decide) (by decide)⟩

/-! ### Claim C7 -/

theorem make_renorm (now now2 : Int) (a : String) (ei : Int) (sc : ScopeInput)
    (stv : Option String) (tt : String) (eav : Option Int)
    (rtv : Option String) :
    OAuth2Token.make now2 a ei (.list (normalize_scope sc)) stv tt
        (some ((OAuth2Token.make now a ei sc stv tt eav rtv).expires_at)) rtv
      = OAuth2Token.make now a ei sc stv tt eav rtv := by
  unfold OAuth2Token.make
  simp only [normalize_scope_idem, Option.getD_some]

/-- C7.  Round trip: `from_dict(token.to_dict())` (without the
unknown-keys flag) reconstructs any constructed token field for field;
`expires_at` is not recomputed because the serialized map always carries
it, so the reconstruction time `now2` is irrelevant. -/
theorem C7_token_roundtrip (now now2 : Int) (a : String) (ei : Int)
    (sc : ScopeInput) (st : Option String) (tt : String) (ea : Option Int)
    (rt : Option String) :
    OAuth2Token.from_dict now2
        ((OAuth2Token.make now a ei sc st tt ea rt).to_dict) false
      = .ok (OAuth2Token.make now a ei sc st tt ea rt) := by
  cases st <;> cases ea <;> cases rt <;>
    exact congrArg Except.ok (make_renorm now now2 a ei sc _ tt _ _)

/-! ### Claim C10 -/

/-- C10.  `ResourceInfo.__eq__` compares only `type` and `id`, ignoring
`owner_id`; in particular the playlist parsed from the legacy four-part
URI (which carries an owner) compares equal to the same playlist parsed
from the two-part URI (which does not). -/
theorem C10_resource_equality_ignores_owner :
    (∀ a b : ResourceInfo,
      ResourceInfo.eq a b = true ↔ a.type = b.type ∧ a.id = b.id) ∧
    ResourceInfo.from_uri "spotify:user:alice:playlist:p1"
      = .ok { type := "playlist", id := "p1", owner_id := some "alice" } ∧
    ResourceInfo.from_uri "spotify:playlist:p1"
      = .ok { type := "playlist", id := "p1", owner_id := Option.none } ∧
    ResourceInfo.eq
      { type := "playlist", id := "p1", owner_id := some "alice" }
      { type := "playlist", id := "p1", owner_id := Option.none } = true := by
  refine ⟨?_, rfl, rfl, rfl⟩
  intro a b
  unfold ResourceInfo.eq
  rw [Bool.and_eq_true, beq_iff_eq, beq_iff_eq]
  constructor
  · intro h
    exact ⟨h.1.symm, h.2.symm⟩
  · intro h
    exact ⟨h.1.symm, h.2.symm⟩

end Spotipie
